import Mathlib

/-!
Shallow embedding of the QFS virtual file system layer of `Quake/filesys.c`
(handle front-end, PAK/loose backends, pack registry, PAK loader, PK3
filename normalization, and the flags computation of the streaming
inflator), together with theorems settling the specification claims.

Machine integers are modelled as `Int` (the C `qfileofs_t`, a signed 64-bit
offset type) and `Nat` (the C `size_t`), with explicit reductions modulo
`2 ^ 64` exactly where the C code converts between them or where unsigned
wrap-around can occur.
-/

/-- `SEEK_SET` of C stdio, the `whence` value for absolute positioning. -/
def SEEK_SET : Int := 0

/-- `SEEK_CUR` of C stdio, the `whence` value for relative positioning. -/
def SEEK_CUR : Int := 1

/-- `SEEK_END` of C stdio, the `whence` value for end-relative positioning. -/
def SEEK_END : Int := 2

/-- The modulus of the C `size_t` type (64-bit). -/
def SIZE_T_MOD : Nat := 2 ^ 64

/-- The C cast `(size_t)x` applied to a signed 64-bit value: reduce modulo
`2 ^ 64` and read the result as an unsigned number. -/
def toSizeT (x : Int) : Nat := (x % (SIZE_T_MOD : Int)).toNat

/-- The C cast `(qfileofs_t)n` applied to a `size_t` value: two's complement
reinterpretation of an unsigned 64-bit number as a signed one. -/
def i64OfSizeT (n : Nat) : Int := (((n : Int) + 2 ^ 63) % 2 ^ 64) - 2 ^ 63

/-- The number of bytes `fread` yields when asked for `n` bytes at position
`pos` of a file of length `flen`: everything up to end of file. -/
def freadCount (flen pos : Int) (n : Nat) : Nat := min n (flen - pos).toNat

/-- The backend state bound into a `qfshandle_t` at open time.  `loose` is a
plain disk file opened via `FS_Open` (its `Sys_filelength` and its OS file
position); `pak` is a file inside a pack opened via `PAK_Open` (the length of
the backing pack file, the entry's `filelen = pack->files[fileno].filelen`,
and the OS position of the pack's `FILE*`). -/
inductive qfsbackend
  | loose (flen : Int) (fpos : Int)
  | pak (packlen : Int) (filelen : Int) (ppos : Int)
deriving DecidableEq

/-- The `qfshandle_t` structure of `filesys.c`: logical offset `offs`, virtual
trim fields `start`/`endtrim`, payload offset `pak_offset`, and the backend
state the vtable pointers (`read`/`seek`/`filesize`/`close`) dispatch on. -/
structure qfshandle_t where
  backend : qfsbackend
  pak_offset : Int
  offs : Int
  start : Int
  endtrim : Int
deriving DecidableEq

/-- Dispatch of `handle->filesize`: `FS_FileSize` returns the OS file length,
`PAK_FileSize` returns `pack->files[handle->fileno].filelen`. -/
def qfsFilesize (h : qfshandle_t) : Int :=
  match h.backend with
  | .loose flen _ => flen
  | .pak _ filelen _ => filelen

/-- Dispatch of `handle->read`.  `FS_Read` does `fread` at the OS position and
advances `handle->offs`.  `PAK_Read` clamps the request against the entry's
`filelen` in `size_t` arithmetic (`actualofs = offs + start`;
`if (actualofs + sz > filesize) sz = filesize - (size_t)actualofs;`), then
seeks the pack's `FILE*` to `pak_offset + offs + start` and reads; if the
clamped size is zero or the seek fails (negative target) it returns the
clamped size without reading. -/
def qfsRead (h : qfshandle_t) (sz : Nat) : Nat × qfshandle_t :=
  match h.backend with
  | .loose flen fpos =>
    let k := freadCount flen fpos sz
    (k, { h with backend := .loose flen (fpos + (k : Int)), offs := h.offs + (k : Int) })
  | .pak packlen filelen _ =>
    let actualofs : Int := h.offs + h.start
    let filesize : Nat := toSizeT (qfsFilesize h)
    let sz : Nat :=
      if (toSizeT actualofs + sz) % SIZE_T_MOD > filesize then
        (filesize + SIZE_T_MOD - toSizeT actualofs) % SIZE_T_MOD
      else sz
    let pos : Int := h.pak_offset + h.offs + h.start
    if sz > 0 ∧ 0 ≤ pos then
      let k := freadCount packlen pos sz
      (k, { h with backend := .pak packlen filelen (pos + (k : Int)), offs := h.offs + (k : Int) })
    else
      (sz, h)

/-- Dispatch of `handle->seek`.  `FS_Seek` is `Sys_fseek(data, pos, SEEK_SET)`
on the OS file (failing for a negative target and not touching `offs`);
`PAK_Seek` just stores `pos` into `handle->offs` and returns 0. -/
def qfsSeekBackend (h : qfshandle_t) (pos : Int) : Int × qfshandle_t :=
  match h.backend with
  | .loose flen _ =>
    if 0 ≤ pos then (0, { h with backend := .loose flen pos }) else (-1, h)
  | .pak _ _ _ =>
    (0, { h with offs := pos })

/-- `QFS_Eof`: true on a NULL handle, otherwise
`handle->offs - handle->endtrim >= handle->filesize(handle) - handle->start`. -/
def QFS_Eof (oh : Option qfshandle_t) : Bool :=
  match oh with
  | none => true
  | some h => if h.offs - h.endtrim ≥ qfsFilesize h - h.start then true else false

/-- `QFS_ReadFile`: returns 0 on a NULL handle; otherwise clamps the request
(`if (offs + (qfileofs_t)size > filesize - endtrim)
  size = (size_t)(filesize - endtrim);`) and delegates to `handle->read`. -/
def QFS_ReadFile (oh : Option qfshandle_t) (size : Nat) : Nat × Option qfshandle_t :=
  match oh with
  | none => (0, none)
  | some h =>
    let filesize := qfsFilesize h
    let size := if h.offs + i64OfSizeT size > filesize - h.endtrim
                then toSizeT (filesize - h.endtrim) else size
    let r := qfsRead h size
    (r.1, some r.2)

/-- `QFS_FileSize`: 0 on a NULL handle, otherwise
`filesize(handle) - start - endtrim`. -/
def QFS_FileSize (oh : Option qfshandle_t) : Int :=
  match oh with
  | none => 0
  | some h => qfsFilesize h - h.start - h.endtrim

/-- `QFS_Tell`: 0 on a NULL handle, otherwise `offs - start`. -/
def QFS_Tell (oh : Option qfshandle_t) : Int :=
  match oh with
  | none => 0
  | some h => h.offs - h.start

/-- `QFS_CloseFile`: a no-op on a NULL handle, otherwise closes the backend
and frees the handle (the handle ceases to exist). -/
def QFS_CloseFile (oh : Option qfshandle_t) : Option qfshandle_t :=
  match oh with
  | none => none
  | some _ => none

/-- The raw seek target of `QFS_Seek`'s `switch (whence)`: `start + offs` for
`SEEK_SET`, `start + handle->offs + offs` for `SEEK_CUR`, and
`filesize(handle) - endtrim + offs` for `SEEK_END`. -/
def qfsSeekTarget (h : qfshandle_t) (offs whence : Int) : Int :=
  if whence = SEEK_SET then h.start + offs
  else if whence = SEEK_CUR then h.start + h.offs + offs
  else qfsFilesize h - h.endtrim + offs

/-- `QFS_Seek`: -1 on a NULL handle or an unknown `whence`; computes the raw
target, rejects it with -1 when
`actual_pos < start || actual_pos > filesize(handle) - (start + endtrim)`,
otherwise delegates to `handle->seek` and on success stores
`handle->offs = actual_pos` and returns 0. -/
def QFS_Seek (oh : Option qfshandle_t) (offs : Int) (whence : Int) : Int × Option qfshandle_t :=
  match oh with
  | none => (-1, none)
  | some h =>
    if whence = SEEK_SET ∨ whence = SEEK_CUR ∨ whence = SEEK_END then
      let actual_pos := qfsSeekTarget h offs whence
      if actual_pos < h.start ∨ actual_pos > qfsFilesize h - (h.start + h.endtrim) then
        (-1, some h)
      else
        let r := qfsSeekBackend h actual_pos
        if r.1 = 0 then (0, some { r.2 with offs := actual_pos }) else (-1, some r.2)
    else
      (-1, some h)

/-- The tail of `QFS_IgnoreBytes` after the trim fields have been updated:
`if (offs < start)` reseek to `start`; else `if (offs > start - endtrim)`
reseek to `filesize - start - endtrim`; else fall through to `return false`. -/
def qfsIgnoreReseek (h : qfshandle_t) (filesize : Int) : Bool × Option qfshandle_t :=
  if h.offs < h.start then
    let r := qfsSeekBackend h h.start
    (r.1 = 0, some r.2)
  else if h.offs > h.start - h.endtrim then
    let r := qfsSeekBackend h (filesize - h.start - h.endtrim)
    (r.1 = 0, some r.2)
  else
    (false, some h)

/-- `QFS_IgnoreBytes`: returns false on a NULL handle; otherwise the branch
chain `if (whence == SEEK_SET && cut <= filesize - endtrim) start = cut;
else if (whence == SEEK_END && cut <= filesize - start) endtrim = cut;
else if (whence == SEEK_SET && cut == 0) endtrim = start = 0;
else return false;` followed by the reseek step. -/
def QFS_IgnoreBytes (oh : Option qfshandle_t) (cut : Int) (whence : Int) : Bool × Option qfshandle_t :=
  match oh with
  | none => (false, none)
  | some h =>
    let filesize := qfsFilesize h
    if whence = SEEK_SET ∧ cut ≤ filesize - h.endtrim then
      qfsIgnoreReseek { h with start := cut } filesize
    else if whence = SEEK_END ∧ cut ≤ filesize - h.start then
      qfsIgnoreReseek { h with endtrim := cut } filesize
    else if whence = SEEK_SET ∧ cut = 0 then
      qfsIgnoreReseek { h with start := 0, endtrim := 0 } filesize
    else
      (false, some h)

/-- The `packfile_t` directory entry of a loaded pack. -/
structure packfile_t where
  name : List Nat
  filepos : Int
  filelen : Int
deriving DecidableEq

/-- The `pack_t` structure (the fields the claims observe: the OS path, the
entry count and table, and the pack format version). -/
structure pack_t where
  filename : String
  numfiles : Int
  files : List packfile_t
  pakver : Int
deriving DecidableEq

/-- `MAX_PACK_FILES`: the capacity of the program-wide pack table. -/
def MAX_PACK_FILES : Nat := 32

/-- `MAX_FILES_IN_PACK`: the maximum number of directory entries of a PAK. -/
def MAX_FILES_IN_PACK : Int := 2048

/-- The program-wide `packs` array: `1 + MAX_PACK_FILES` slots, slot 0 a
permanent placeholder so 0 can signal "no pack". -/
abbrev PackRegistry := List (Option pack_t)

/-- The initial all-NULL `packs` array. -/
def initialPacks : PackRegistry := List.replicate (1 + MAX_PACK_FILES) none

/-- `QFS_RegisterPack`: scan slots `1 .. countof(packs) - 1` for the first
NULL slot, store the pack there and return the index; if every slot is
occupied, free the pack, warn, and return 0. -/
def QFS_RegisterPack (packs : PackRegistry) (pack : pack_t) : Int × PackRegistry :=
  match (List.range' 1 MAX_PACK_FILES).find? (fun i => packs.getD i none = none) with
  | some i => ((i : Int), packs.set i (some pack))
  | none => (0, packs)

/-- `QFS_GetPack`: return the pack with the given number, or NULL if there is
none; the guard is `num > 0 && num < MAX_PACK_FILES`.  With `unregister`
set the slot is cleared and ownership moves to the caller. -/
def QFS_GetPack (packs : PackRegistry) (num : Int) (unregister : Bool) :
    Option pack_t × PackRegistry :=
  if 0 < num ∧ num < (MAX_PACK_FILES : Int) then
    (packs.getD num.toNat none, if unregister then packs.set num.toNat none else packs)
  else
    (none, packs)

/-- `QFS_PackInfoName`: the filename of the pack with the given id, or NULL. -/
def QFS_PackInfoName (packs : PackRegistry) (packid : Int) : Option String :=
  ((QFS_GetPack packs packid false).1).map pack_t.filename

/-- Byte `i` of a file image (files are byte lists; out-of-range reads give
0, and values are reduced to the byte range). -/
def byteAt (f : List Nat) (i : Nat) : Nat := f.getD i 0 % 256

/-- A little-endian signed 32-bit integer at offset `i` of a file image. -/
def int32At (f : List Nat) (i : Nat) : Int :=
  let n : Nat := byteAt f i + byteAt f (i + 1) * 256 + byteAt f (i + 2) * 65536 +
    byteAt f (i + 3) * 16777216
  if n < 2 ^ 31 then (n : Int) else (n : Int) - 2 ^ 32

/-- The magic check of `QFS_LoadPAKFile`: the first four bytes must be
`'P','A','C','K'`. -/
def pakMagicOk (f : List Nat) : Bool :=
  (byteAt f 0 == 80) && (byteAt f 1 == 65) && (byteAt f 2 == 67) && (byteAt f 3 == 75)

/-- One parsed PAK directory record: 56 bytes of NUL-padded name (copied with
`q_strlcpy` into a `MAX_QPATH`-sized field, so truncated at 63 bytes), then
`filepos` and `filelen` as little-endian int32. -/
def parsePakEntry (dir : List Nat) (i : Nat) : packfile_t :=
  { name := ((((dir.drop (i * 64)).take 56).takeWhile (fun b => b % 256 ≠ 0)).take 63)
    filepos := int32At dir (i * 64 + 56)
    filelen := int32At dir (i * 64 + 60) }

/-- The observable outcome of loading a pack: `fatal` is a `Sys_Error` (the
process terminates and nothing is returned), `ret id` is a normal return. -/
inductive PakLoadResult
  | fatal
  | ret (id : Int)
deriving DecidableEq

/-- `QFS_LoadPAKFile` on the byte contents `f` of a file that could be
opened: header read and magic check (`Sys_Error` on failure), then
`numpackfiles = dirlen / sizeof(dpackfile_t)` with C truncating division,
`Sys_Error` when `dirlen < 0 || dirofs < 0`, a soft warning return 0 when
`numpackfiles` is 0, `Sys_Error` when it exceeds `MAX_FILES_IN_PACK`,
`Sys_Error` when the directory read comes up short, and otherwise the pack is
assembled and handed to `QFS_RegisterPack`. -/
def QFS_LoadPAKFile (path : String) (f : List Nat) (packs : PackRegistry) :
    PakLoadResult × PackRegistry :=
  if f.length < 12 ∨ pakMagicOk f = false then (.fatal, packs)
  else if int32At f 8 < 0 ∨ int32At f 4 < 0 then (.fatal, packs)
  else if Int.tdiv (int32At f 8) 64 = 0 then (.ret 0, packs)
  else if Int.tdiv (int32At f 8) 64 > MAX_FILES_IN_PACK then (.fatal, packs)
  else if (f.length : Int) - int32At f 4 < int32At f 8 then (.fatal, packs)
  else
    let pack : pack_t :=
      { filename := path
        numfiles := Int.tdiv (int32At f 8) 64
        files := (List.range (Int.tdiv (int32At f 8) 64).toNat).map
          (parsePakEntry ((f.drop (int32At f 4).toNat).take (int32At f 8).toNat))
        pakver := 1 }
    let r := QFS_RegisterPack packs pack
    (.ret r.1, r.2)

/-- Modelled from the spec: `q_strascii` (defined outside the excerpted
sources) reports whether a name contains only plain ASCII bytes, i.e. no
byte `≥ 0x80`. -/
def q_strascii (raw : List Nat) : Bool := raw.all (fun b => b % 256 < 0x80)

/-- Modelled from the spec: the Unicode code points of the IBM437 high half
(`0x80 .. 0xFF`), the DOS-era code page the PK3 loader assumes for legacy
filenames. -/
def ibm437High : List Nat :=
  [0x00C7, 0x00FC, 0x00E9, 0x00E2, 0x00E4, 0x00E0, 0x00E5, 0x00E7,
   0x00EA, 0x00EB, 0x00E8, 0x00EF, 0x00EE, 0x00EC, 0x00C4, 0x00C5,
   0x00C9, 0x00E6, 0x00C6, 0x00F4, 0x00F6, 0x00F2, 0x00FB, 0x00F9,
   0x00FF, 0x00D6, 0x00DC, 0x00A2, 0x00A3, 0x00A5, 0x20A7, 0x0192,
   0x00E1, 0x00ED, 0x00F3, 0x00FA, 0x00F1, 0x00D1, 0x00AA, 0x00BA,
   0x00BF, 0x2310, 0x00AC, 0x00BD, 0x00BC, 0x00A1, 0x00AB, 0x00BB,
   0x2591, 0x2592, 0x2593, 0x2502, 0x2524, 0x2561, 0x2562, 0x2556,
   0x2555, 0x2563, 0x2551, 0x2557, 0x255D, 0x255C, 0x255B, 0x2510,
   0x2514, 0x2534, 0x252C, 0x251C, 0x2500, 0x253C, 0x255E, 0x255F,
   0x255A, 0x2554, 0x2569, 0x2566, 0x2560, 0x2550, 0x256C, 0x2567,
   0x2568, 0x2564, 0x2565, 0x2559, 0x2558, 0x2552, 0x2553, 0x256B,
   0x256A, 0x2518, 0x250C, 0x2588, 0x2584, 0x258C, 0x2590, 0x2580,
   0x03B1, 0x00DF, 0x0393, 0x03C0, 0x03A3, 0x03C3, 0x00B5, 0x03C4,
   0x03A6, 0x0398, 0x03A9, 0x03B4, 0x221E, 0x03C6, 0x03B5, 0x2229,
   0x2261, 0x00B1, 0x2265, 0x2264, 0x2320, 0x2321, 0x00F7, 0x2248,
   0x00B0, 0x2219, 0x00B7, 0x221A, 0x207F, 0x00B2, 0x25A0, 0x00A0]

/-- The Unicode code point an IBM437 byte stands for (ASCII below `0x80`). -/
def ibm437ToCodepoint (b : Nat) : Nat :=
  if b % 256 < 0x80 then b % 256 else ibm437High.getD (b % 256 - 0x80) 0

/-- The UTF-8 encoding of one code point (every IBM437 target is below
`0x10000`, so at most three bytes arise). -/
def utf8EncodeChar (c : Nat) : List Nat :=
  if c < 0x80 then [c]
  else if c < 0x800 then [0xC0 + c / 64, 0x80 + c % 64]
  else [0xE0 + c / 4096, 0x80 + (c / 64) % 64, 0x80 + c % 64]

/-- Modelled from the spec: `UTF8_FromIBM437` (defined outside the excerpted
sources) reinterprets a byte string as IBM437 and transcodes it to UTF-8. -/
def UTF8_FromIBM437 (raw : List Nat) : List Nat :=
  (raw.map ibm437ToCodepoint).flatMap utf8EncodeChar

/-- Modelled from the spec: `MAX_QPATH`, the capacity of an entry-name field
(64 in the Quake sources; the header defining it is not excerpted). -/
def MAX_QPATH : Nat := 64

/-- Modelled from the spec: the size of the stack name buffer of
`QFS_LoadPK3File` (`MZ_ZIP_MAX_ARCHIVE_FILENAME_SIZE` of miniz, 512). -/
def MZ_ZIP_MAX_ARCHIVE_FILENAME_SIZE : Nat := 512

/-- The filename-normalization step of `QFS_LoadPK3File` for one stored
entry, given the zip general-purpose `bit_flag` and the raw name bytes:
when bit 11 is clear and the name is not pure ASCII, transcode via
`UTF8_FromIBM437` (lengths count the NUL terminator, matching the byte
counts the C code carries in `len`), keep the transcoding only when it fits
the stack buffer, and finally `Sys_Error` (`none`) when the resulting length
reaches `MAX_QPATH`; otherwise the surviving name is stored. -/
def pk3EntryStoredName (bit_flag : Nat) (raw : List Nat) : Option (List Nat) :=
  if bit_flag &&& 2 ^ 11 = 0 ∧ q_strascii raw = false then
    if (UTF8_FromIBM437 raw).length + 1 ≤ MZ_ZIP_MAX_ARCHIVE_FILENAME_SIZE then
      if (UTF8_FromIBM437 raw).length + 1 ≥ MAX_QPATH then none
      else some (UTF8_FromIBM437 raw)
    else
      if (UTF8_FromIBM437 raw).length + 1 ≥ MAX_QPATH then none
      else some raw
  else
    if raw.length + 1 ≥ MAX_QPATH then none else some raw

/-- `TINFL_FLAG_HAS_MORE_INPUT` of miniz's `tinfl_decompress`. -/
def TINFL_FLAG_HAS_MORE_INPUT : Nat := 2

/-- `TINFL_FLAG_USING_NON_WRAPPING_OUTPUT_BUF` of miniz's `tinfl_decompress`. -/
def TINFL_FLAG_USING_NON_WRAPPING_OUTPUT_BUF : Nat := 4

/-- The flags argument `ZIP_Read` passes to `tinfl_decompress`, with C
operator precedence: `|` binds tighter than `?:`, so the source expression
`comp_size >= foffs_in ? TINFL_FLAG_HAS_MORE_INPUT
  : 0 | TINFL_FLAG_USING_NON_WRAPPING_OUTPUT_BUF`
yields only one of the two flags, selected by the (non-strict) comparison. -/
def zipReadDecompressFlags (comp_size foffs_in : Int) : Nat :=
  if comp_size ≥ foffs_in then TINFL_FLAG_HAS_MORE_INPUT
  else 0 ||| TINFL_FLAG_USING_NON_WRAPPING_OUTPUT_BUF

/-- A freshly opened PAK-backed handle over an entry of length 1000 stored at
the front of a 1000-byte pack file. -/
def hOpen1000 : qfshandle_t :=
  { backend := .pak 1000 1000 0, pak_offset := 0, offs := 0, start := 0, endtrim := 0 }

/-- `hOpen1000` after `QFS_IgnoreBytes(h, 128, SEEK_END)`: `endtrim = 128`
and the reseek step has moved `offs` to 872, the visible end. -/
def hTrim1000 : qfshandle_t :=
  { backend := .pak 1000 1000 0, pak_offset := 0, offs := 872, start := 0, endtrim := 128 }

/-- `hTrim1000` after `QFS_ReadFile(h, _, 1)`: the backend has read 128 bytes
of the trimmed trailer and `offs` sits at the raw end 1000. -/
def hOverrun1000 : qfshandle_t :=
  { backend := .pak 1000 1000 1000, pak_offset := 0, offs := 1000, start := 0, endtrim := 128 }

/-- A freshly opened PAK-backed handle over an entry of length 100 stored at
the front of a 100-byte pack file. -/
def hOpen100 : qfshandle_t :=
  { backend := .pak 100 100 0, pak_offset := 0, offs := 0, start := 0, endtrim := 0 }

/-- `hOpen100` after `QFS_IgnoreBytes(h, 10, SEEK_SET)`: `start = 10` and the
reseek step has moved `offs` to 10. -/
def hStart100 : qfshandle_t :=
  { backend := .pak 100 100 0, pak_offset := 0, offs := 10, start := 10, endtrim := 0 }

/-- `hOpen1000` after `QFS_IgnoreBytes(h, 5, SEEK_SET)`. -/
def hCut5 : qfshandle_t :=
  { backend := .pak 1000 1000 0, pak_offset := 0, offs := 5, start := 5, endtrim := 0 }

/-- `hCut5` after `QFS_IgnoreBytes(h, 128, SEEK_END)`. -/
def hCut5Trim128 : qfshandle_t :=
  { backend := .pak 1000 1000 0, pak_offset := 0, offs := 867, start := 5, endtrim := 128 }

/-- `hCut5Trim128` after `QFS_IgnoreBytes(h, 0, SEEK_SET)`: only `start` has
been cleared, `endtrim` is still 128. -/
def hAfterReset : qfshandle_t :=
  { backend := .pak 1000 1000 0, pak_offset := 0, offs := 872, start := 0, endtrim := 128 }

/-- A dummy pack occupying one registry slot. -/
def dummyPack : pack_t := { filename := "dummy.pak", numfiles := 1, files := [], pakver := 1 }

/-- The pack registered into the last slot in the claim C3 scenario. -/
def lastPack : pack_t := { filename := "last.pak", numfiles := 1, files := [], pakver := 1 }

/-- A registry whose slots 1..31 are occupied and whose last slot 32 is
free. -/
def packs31 : PackRegistry := none :: (List.replicate 31 (some dummyPack) ++ [none])

/-- A 12-byte file image beginning "PACK" with `dirofs = 0` and
`dirlen = -1`. -/
def pakFileDirlenNeg1 : List Nat := [80, 65, 67, 75, 0, 0, 0, 0, 255, 255, 255, 255]

/-- A 12-byte file image beginning "PACK" with `dirofs = 12` and
`dirlen = 0` (an empty directory). -/
def pakFileEmptyDir : List Nat := [80, 65, 67, 75, 12, 0, 0, 0, 0, 0, 0, 0]

/-- A file image whose magic is wrong. -/
def pakFileBadMagic : List Nat := [80, 75, 3, 4, 0, 0, 0, 0, 0, 0, 0, 0]

/-- Claim C9: every front-end operation is total on a NULL handle and yields
its failure sentinel: `QFS_ReadFile` returns 0, `QFS_Seek` returns -1,
`QFS_Tell` returns 0, `QFS_FileSize` returns 0, `QFS_Eof` returns true, and
`QFS_CloseFile` and `QFS_IgnoreBytes` are no-ops (the latter returning
false). -/
theorem claim_C9 :
    (∀ n, QFS_ReadFile none n = (0, none)) ∧
    (∀ off w, QFS_Seek none off w = (-1, none)) ∧
    QFS_Tell none = 0 ∧
    QFS_FileSize none = 0 ∧
    QFS_Eof none = true ∧
    QFS_CloseFile none = none ∧
    (∀ cut w, QFS_IgnoreBytes none cut w = (false, none)) :=
  ⟨fun _ => rfl, fun _ _ => rfl, rfl, rfl, rfl, rfl, fun _ _ => rfl⟩

/-- Claim C1 fails on the code: on a 1000-byte PAK entry with
`endtrim = 128`, the handle reached by `QFS_IgnoreBytes(h, 128, SEEK_END)`
sits at the visible end (`tell = size = 872`), yet `QFS_ReadFile` of a
single byte returns 128 — the clamp `size = (size_t)(filesize - endtrim)`
forgets to subtract `offs`, so the read overruns the visible end into the
trimmed trailer and returns more bytes than were requested. -/
theorem claim_C1 :
    QFS_IgnoreBytes (some hOpen1000) 128 SEEK_END = (true, some hTrim1000) ∧
    QFS_Tell (some hTrim1000) = 872 ∧
    QFS_FileSize (some hTrim1000) = 872 ∧
    QFS_ReadFile (some hTrim1000) 1 = (128, some hOverrun1000) ∧
    ¬ (128 ≤ 1) ∧
    QFS_Tell (some hOverrun1000) = 1000 := by decide

/-- Claim C4 fails on the code: at the same state (`offs = 872` equal to the
visible size 872) the claimed equivalence says `QFS_Eof` is true, but the
code's test `offs - endtrim >= filesize - start` compares `744 >= 1000` and
returns false — the two conditions differ whenever `endtrim > 0`. -/
theorem claim_C4 :
    QFS_Eof (some hTrim1000) = false ∧
    hTrim1000.offs ≥ QFS_FileSize (some hTrim1000) ∧
    QFS_Tell (some hTrim1000) = QFS_FileSize (some hTrim1000) := by decide

/-- Claim C2 fails on the code: with `raw = 100`, `start = 10`,
`endtrim = 0` (state reached by `QFS_IgnoreBytes(h, 10, SEEK_SET)`), a
`SEEK_SET` seek to 90 computes `actual_pos = 100`, which lies inside the
claimed interval `[start, raw - endtrim] = [10, 100]`, yet `QFS_Seek`
returns -1 because its guard compares against
`filesize - (start + endtrim) = 90`, subtracting `start` a second time. -/
theorem claim_C2 :
    QFS_IgnoreBytes (some hOpen100) 10 SEEK_SET = (true, some hStart100) ∧
    qfsSeekTarget hStart100 90 SEEK_SET = 100 ∧
    hStart100.start ≤ 100 ∧
    (100 : Int) ≤ qfsFilesize hStart100 - hStart100.endtrim ∧
    QFS_Seek (some hStart100) 90 SEEK_SET = (-1, some hStart100) := by decide

/-- Claim C5 fails on the code: starting from `start = 5, endtrim = 128`
(reached by two `QFS_IgnoreBytes` calls), the call
`QFS_IgnoreBytes(h, 0, SEEK_SET)` is captured by the first branch
(`cut = 0 <= filesize - endtrim`), which clears only `start`; the
`endtrim = start = 0` reset branch is unreachable, so `endtrim` remains
128 instead of being reset to 0. -/
theorem claim_C5 :
    QFS_IgnoreBytes (some hOpen1000) 5 SEEK_SET = (true, some hCut5) ∧
    QFS_IgnoreBytes (some hCut5) 128 SEEK_END = (true, some hCut5Trim128) ∧
    QFS_IgnoreBytes (some hCut5Trim128) 0 SEEK_SET = (true, some hAfterReset) ∧
    hAfterReset.start = 0 ∧
    hAfterReset.endtrim = 128 ∧
    ¬ (hAfterReset.endtrim = 0) := by decide

/-- Claim C3 fails on the code: with slots 1..31 occupied,
`QFS_RegisterPack` stores the pack in slot 32 and returns id 32, but
`QFS_GetPack`'s guard `num > 0 && num < MAX_PACK_FILES` rejects 32, so the
lookup of a freshly returned id yields NULL (`QFS_PackInfoName` included). -/
theorem claim_C3 :
    (QFS_RegisterPack packs31 lastPack).1 = 32 ∧
    ((QFS_RegisterPack packs31 lastPack).2).getD 32 none = some lastPack ∧
    (QFS_GetPack (QFS_RegisterPack packs31 lastPack).2 32 false).1 = none ∧
    QFS_PackInfoName (QFS_RegisterPack packs31 lastPack).2 32 = none := by decide

/-- Claim C8 fails on the code: when `foffs_in = comp_size` (no compressed
bytes remain) the comparison `comp_size >= foffs_in` still selects
`TINFL_FLAG_HAS_MORE_INPUT`, and — because `|` binds tighter than `?:` —
`TINFL_FLAG_USING_NON_WRAPPING_OUTPUT_BUF` is dropped from that branch, so
the decoder is invoked with the has-more-input flag despite no input
remaining and without the non-wrapping-output flag (also dropped while
input does remain, as the last conjunct shows). -/
theorem claim_C8 :
    ¬ ((10 : Int) < 10) ∧
    zipReadDecompressFlags 10 10 &&& TINFL_FLAG_HAS_MORE_INPUT = TINFL_FLAG_HAS_MORE_INPUT ∧
    zipReadDecompressFlags 10 10 &&& TINFL_FLAG_USING_NON_WRAPPING_OUTPUT_BUF = 0 ∧
    zipReadDecompressFlags 20 10 &&& TINFL_FLAG_USING_NON_WRAPPING_OUTPUT_BUF = 0 := by decide

/-- Claim C10: whenever `QFS_Seek` rejects a request before delegating to the
backend — NULL handle, a `whence` outside SET/CUR/END, or a computed raw
target outside the allowed range — it returns -1 and the handle (its `offs`,
`start` and `endtrim` included) is unchanged. -/
theorem claim_C10 :
    (∀ off w, QFS_Seek none off w = (-1, none)) ∧
    (∀ (h : qfshandle_t) off w, ¬ (w = SEEK_SET ∨ w = SEEK_CUR ∨ w = SEEK_END) →
      QFS_Seek (some h) off w = (-1, some h)) ∧
    (∀ (h : qfshandle_t) off w,
      (qfsSeekTarget h off w < h.start ∨
        qfsSeekTarget h off w > qfsFilesize h - (h.start + h.endtrim)) →
      QFS_Seek (some h) off w = (-1, some h)) := by
  refine ⟨fun _ _ => rfl, ?_, ?_⟩
  · intro h off w hw
    simp only [QFS_Seek, if_neg hw]
  · intro h off w hout
    by_cases hw : w = SEEK_SET ∨ w = SEEK_CUR ∨ w = SEEK_END
    · simp only [QFS_Seek, if_pos hw, if_pos hout]
    · simp only [QFS_Seek, if_neg hw]

/-- Witness for claim C10: an unknown `whence` value 5 and an out-of-range
`SEEK_SET` target 101 on a fresh 100-byte handle are both rejected with -1
and leave the handle untouched. -/
theorem claim_C10_witness :
    QFS_Seek (some hOpen100) 0 5 = (-1, some hOpen100) ∧
    QFS_Seek (some hOpen100) 101 SEEK_SET = (-1, some hOpen100) :=
  ⟨claim_C10.2.1 hOpen100 0 5 (by decide),
   claim_C10.2.2 hOpen100 101 SEEK_SET (Or.inr (by decide))⟩

/-- Claim C6: the PAK loader, on a file it could open, fatally rejects a
wrong magic (or a short header), `dirlen < 0`, `dirofs < 0`, and
`numfiles = dirlen/64 > 2048`, while `numfiles = 0` (with valid header) is a
soft failure returning 0 and leaving the registry untouched; in particular
the file beginning "PACK" with `dirlen = -1` is a fatal error — no pack id
is ever produced — even though `dirlen/64` computes to 0 under C's
truncating division. -/
theorem claim_C6 :
    (∀ (path : String) (f : List Nat) (packs : PackRegistry),
      f.length < 12 ∨ pakMagicOk f = false →
      (QFS_LoadPAKFile path f packs).1 = .fatal) ∧
    (∀ (path : String) (f : List Nat) (packs : PackRegistry),
      pakMagicOk f = true → 12 ≤ f.length →
      int32At f 8 < 0 ∨ int32At f 4 < 0 →
      (QFS_LoadPAKFile path f packs).1 = .fatal) ∧
    (∀ (path : String) (f : List Nat) (packs : PackRegistry),
      Int.tdiv (int32At f 8) 64 > 2048 →
      (QFS_LoadPAKFile path f packs).1 = .fatal) ∧
    (∀ (path : String) (f : List Nat) (packs : PackRegistry),
      pakMagicOk f = true → 12 ≤ f.length →
      0 ≤ int32At f 8 → 0 ≤ int32At f 4 → Int.tdiv (int32At f 8) 64 = 0 →
      QFS_LoadPAKFile path f packs = (.ret 0, packs)) ∧
    ((QFS_LoadPAKFile "c.pak" pakFileDirlenNeg1 initialPacks).1 = .fatal ∧
      int32At pakFileDirlenNeg1 8 = -1 ∧
      Int.tdiv (int32At pakFileDirlenNeg1 8) 64 = 0) := by
  refine ⟨?_, ?_, ?_, ?_, by decide⟩
  · intro path f packs hcond
    unfold QFS_LoadPAKFile
    rcases hcond with hl | hm
    · rw [if_pos (Or.inl hl)]
    · rw [if_pos (Or.inr hm)]
  · intro path f packs hmagic hlen hneg
    unfold QFS_LoadPAKFile
    rw [if_neg (by push_neg; exact ⟨by omega, by simp [hmagic]⟩), if_pos hneg]
  · intro path f packs hdiv
    unfold QFS_LoadPAKFile
    revert hdiv
    generalize Int.tdiv (int32At f 8) 64 = t
    intro hdiv
    split_ifs with h1 h2 h3 h4 h5
    · rfl
    · rfl
    · exact absurd hdiv (by omega)
    · rfl
    · rfl
    · exact absurd h4 (by simp only [MAX_FILES_IN_PACK]; omega)
  · intro path f packs hmagic hlen h8 h4n hdiv0
    unfold QFS_LoadPAKFile
    rw [if_neg (by push_neg; exact ⟨by omega, by simp [hmagic]⟩),
      if_neg (by omega), if_pos hdiv0]

/-- Witness for claim C6: a zip-magic file is fatally rejected, and the
"PACK" file with an empty directory is a soft failure returning 0 with the
registry unchanged. -/
theorem claim_C6_witness :
    (QFS_LoadPAKFile "bad.pak" pakFileBadMagic initialPacks).1 = .fatal ∧
    QFS_LoadPAKFile "empty.pak" pakFileEmptyDir initialPacks = (.ret 0, initialPacks) :=
  ⟨claim_C6.1 "bad.pak" pakFileBadMagic initialPacks (Or.inr (by decide)),
   claim_C6.2.2.2.1 "empty.pak" pakFileEmptyDir initialPacks (by decide) (by decide)
     (by decide) (by decide) (by decide)⟩

/-- Claim C7: for a PK3 entry whose general-purpose bit 11 is clear and
whose raw name contains a byte `≥ 0x80`, the stored entry name is the
IBM437-to-UTF-8 transcoding of the raw bytes (the single byte 0x82 is
stored as 0xC3 0xA9); for an entry with bit 11 set, the raw bytes are
stored unchanged. -/
theorem claim_C7 :
    (∀ (bit_flag : Nat) (raw s : List Nat),
      bit_flag &&& 2 ^ 11 = 0 → q_strascii raw = false →
      pk3EntryStoredName bit_flag raw = some s → s = UTF8_FromIBM437 raw) ∧
    (∀ (bit_flag : Nat) (raw s : List Nat),
      bit_flag &&& 2 ^ 11 ≠ 0 →
      pk3EntryStoredName bit_flag raw = some s → s = raw) ∧
    pk3EntryStoredName 0 [0x82] = some [0xC3, 0xA9] := by
  refine ⟨?_, ?_, by decide⟩
  · intro bf raw s hbf hascii hs
    unfold pk3EntryStoredName at hs
    rw [if_pos ⟨hbf, hascii⟩] at hs
    split_ifs at hs with h1 h2 h3
    · exact (Option.some.inj hs).symm
    · exfalso
      simp only [MZ_ZIP_MAX_ARCHIVE_FILENAME_SIZE, MAX_QPATH] at h1 h3
      omega
  · intro bf raw s hbf hs
    unfold pk3EntryStoredName at hs
    rw [if_neg (fun hc => hbf hc.1)] at hs
    split_ifs at hs with h1
    · exact (Option.some.inj hs).symm

/-- Witness for claim C7: the one-byte name 0x82 with bit 11 clear is stored
as its transcoding 0xC3 0xA9, and the same name with bit 11 set is stored
unchanged. -/
theorem claim_C7_witness :
    (0 : Nat) &&& 2 ^ 11 = 0 ∧ q_strascii [0x82] = false ∧
    pk3EntryStoredName 0 [0x82] = some [0xC3, 0xA9] ∧
    [0xC3, 0xA9] = UTF8_FromIBM437 [0x82] ∧
    (2048 : Nat) &&& 2 ^ 11 ≠ 0 ∧
    pk3EntryStoredName 2048 [0x82] = some [0x82] ∧
    ([0x82] : List Nat) = [0x82] :=
  ⟨by decide, by decide, by decide,
   claim_C7.1 0 [0x82] [0xC3, 0xA9] (by decide) (by decide) (by decide),
   by decide, by decide,
   claim_C7.2.1 2048 [0x82] [0x82] (by decide) (by decide)⟩
